import Mathlib

/-!
Verification of the encoding-policy decision engine of the videocompress-http
server (`go/examples/api-usage.go`): size-based mode selection, speed profiles,
resolution table, tiny-input safety override, ffmpeg parameter compilation and
the hardware-fallback retry in `runFFmpeg`. Go code is embedded shallowly:
structs become structures, methods on `*compressOpts` become functions
`compressOpts → compressOpts`, `int`/`int64` become `Int` (Go division
truncates toward zero, i.e. `Int.tdiv`), and byte strings are `String` with
ASCII-only helpers mirroring the `strings`/`strconv` calls the code makes.
-/

namespace VideoCompress

/-- ASCII lower-casing of one character, as `strings.ToLower` acts on the
ASCII enum values this server compares against. -/
def lowChar (c : Char) : Char :=
  if c.isUpper then Char.ofNat (c.toNat + 32) else c

/-- `strings.ToLower`, restricted to ASCII (all comparisons in the source are
against ASCII literals). -/
def goToLower (s : String) : String := ⟨s.data.map lowChar⟩

/-- Boolean test that the first list is a prefix of the second. -/
def listPrefixB : List Char → List Char → Bool
  | [], _ => true
  | _ :: _, [] => false
  | a :: as, b :: bs => (a == b) && listPrefixB as bs

/-- Boolean test that the first list occurs contiguously in the second. -/
def listInfixB (pat : List Char) : List Char → Bool
  | [] => listPrefixB pat []
  | b :: bs => listPrefixB pat (b :: bs) || listInfixB pat bs

/-- `strings.Contains s sub`. -/
def goContains (s sub : String) : Bool := listInfixB sub.data s.data

/-- Value of a non-empty all-digit character list, `none` otherwise. -/
def digitsVal (l : List Char) : Option Nat :=
  if l = [] then none
  else
    l.foldl
      (fun acc c =>
        match acc with
        | none => none
        | some n => if c.isDigit then some (n * 10 + (c.toNat - 48)) else none)
      (some 0)

/-- `strconv.Atoi`: optional sign followed by decimal digits, anything else is
an error (`none`). The int64 range check is omitted: the only caller guards
the result with `0 < n ∧ n ≤ 60`, so out-of-range inputs are rejected either
way. -/
def goAtoi (s : String) : Option Int :=
  match s.data with
  | [] => none
  | c :: rest =>
    let (sign, ds) :=
      if c = '-' then ((-1 : Int), rest)
      else if c = '+' then ((1 : Int), rest)
      else ((1 : Int), c :: rest)
    match digitsVal ds with
    | some n => some (sign * (n : Int))
    | none => none

/-- The `compressOpts` struct of the server (field for field). -/
structure compressOpts where
  Codec : String
  CRF : Int
  Preset : String
  Scale : String
  FPS : Int
  Audio : String
  AB : String
  HW : String
  OutExt : String
  SpeedMode : String
  Resolution : String
deriving DecidableEq

/-- `chooseSpeedBySize`: first-pass size-based mode selector (size in whole,
truncated megabytes). -/
def chooseSpeedBySize (sizeMB : Int) : String :=
  if 700 ≤ sizeMB then "ultra_fast"
  else if 200 ≤ sizeMB then "super_fast"
  else if 50 ≤ sizeMB then "fast"
  else if 10 ≤ sizeMB then "balanced"
  else "balanced"

/-- `applySpeedMode`: speed profile table mapping the mode to CRF, preset and
audio bitrate; the `default` branch (balanced and every unknown mode) fills
CRF and preset only when unset. -/
def applySpeedMode (o : compressOpts) : compressOpts :=
  if o.SpeedMode = "turbo" then { o with CRF := 34, Preset := "ultrafast", AB := "96k" }
  else if o.SpeedMode = "max" then { o with CRF := 36, Preset := "ultrafast", AB := "64k" }
  else if o.SpeedMode = "ultra_fast" then { o with CRF := 32, Preset := "ultrafast", AB := "96k" }
  else if o.SpeedMode = "super_fast" then { o with CRF := 30, Preset := "ultrafast", AB := "96k" }
  else if o.SpeedMode = "fast" then { o with CRF := 28, Preset := "veryfast", AB := "128k" }
  else if o.SpeedMode = "quality" then { o with CRF := 23, Preset := "fast", AB := "128k" }
  else
    { o with
      CRF := if o.CRF = 0 then 26 else o.CRF,
      Preset := if o.Preset = "" then "veryfast" else o.Preset }

/-- `applyResolution`: resolution table mapping the tier name to a fixed
width:height scale target; `original` and unknown tiers leave `Scale`
unchanged. -/
def applyResolution (o : compressOpts) : compressOpts :=
  if o.Resolution = "360p" then { o with Scale := "640:360" }
  else if o.Resolution = "480p" then { o with Scale := "854:480" }
  else if o.Resolution = "720p" then { o with Scale := "1280:720" }
  else if o.Resolution = "1080p" then { o with Scale := "1920:1080" }
  else if o.Resolution = "1440p" then { o with Scale := "2560:1440" }
  else if o.Resolution = "2160p" then { o with Scale := "3840:2160" }
  else o

/-- The seven independent empty-field default fills at the head of
`normalize`. -/
def fillDefaults (o : compressOpts) : compressOpts :=
  { o with
    Codec := if o.Codec = "" then "h264" else o.Codec,
    Audio := if o.Audio = "" then "aac" else o.Audio,
    AB := if o.AB = "" then "128k" else o.AB,
    HW := if o.HW = "" then "none" else o.HW,
    OutExt := if o.OutExt = "" then ".mp4" else o.OutExt,
    SpeedMode := if o.SpeedMode = "" then "ai" else o.SpeedMode,
    Resolution := if o.Resolution = "" then "original" else o.Resolution }

/-- `normalize`: fill defaults, then apply the resolution table. -/
def normalize (o : compressOpts) : compressOpts := applyResolution (fillDefaults o)

/-- `tinyInputSafety`: for inputs under 10 whole megabytes, overwrite codec,
audio, scale, CRF, preset and hardware with conservative values. -/
def tinyInputSafety (o : compressOpts) (fileSize : Int) : compressOpts :=
  if Int.tdiv fileSize (1024 * 1024) < 10 then
    { o with Codec := "h264", Audio := "aac", Scale := "", CRF := 22,
             Preset := "veryfast", HW := "none" }
  else o

/-- A single-quote character (codepoint 39), used inside the ffmpeg scale
filter expressions. -/
def sqc : String := ⟨[Char.ofNat 39]⟩

/-- The orientation-safe long-edge scale filter emitted for turbo/max:
scale=Q if(gt(a,1),-2,T) Q:Q if(gt(a,1),T,-2) Q:flags=fast_bilinear,setsar=1
with T the long-edge target and Q a single quote (and no blanks around Q). -/
def longEdgeVF (target : Nat) : String :=
  "scale=" ++ sqc ++ "if(gt(a,1),-2," ++ toString target ++ ")" ++ sqc
    ++ ":" ++ sqc ++ "if(gt(a,1)," ++ toString target ++ ",-2)" ++ sqc
    ++ ":flags=fast_bilinear,setsar=1"

/-- The filter string of the `turbo` branch of `buildFFmpegArgs`. -/
def turboVF : String := longEdgeVF 720

/-- The filter string of the `max` branch of `buildFFmpegArgs`. -/
def maxVF : String := longEdgeVF 480

/-- The `-x264-params` value used by the turbo/max acceleration block. -/
def x264Opts : String :=
  "no-scenecut=1:ref=1:bframes=0:me=dia:subme=0:trellis=0:aq-mode=0:fast_pskip=1:sync-lookahead=0:rc-lookahead=0"

/-- Hardware-decode flags prepended when `HW` is `videotoolbox`. -/
def hwArgs (o : compressOpts) : List String :=
  if goToLower o.HW = "videotoolbox" then
    ["-hwaccel", "videotoolbox", "-hwaccel_output_format", "videotoolbox"]
  else []

/-- The video filter chosen inside `buildFFmpegArgs` (empty string = no
filter): turbo/max use the orientation-safe long-edge filter and ignore
`Scale`; other modes wrap a non-empty `Scale`; codec `copy` gets none. -/
def vfOf (o : compressOpts) : String :=
  if goToLower o.Codec ≠ "copy" then
    if o.SpeedMode = "turbo" then turboVF
    else if o.SpeedMode = "max" then maxVF
    else if o.Scale ≠ "" then "scale=" ++ o.Scale ++ ":flags=fast_bilinear,setsar=1"
    else ""
  else ""

/-- The value of `o.FPS` after the in-place `o.FPS = 24` defaulting that the
turbo/max filter branches perform when no fps was requested. -/
def effFPS (o : compressOpts) : Int :=
  if goToLower o.Codec ≠ "copy" ∧ (o.SpeedMode = "turbo" ∨ o.SpeedMode = "max") ∧ o.FPS = 0
  then 24 else o.FPS

/-- `-vf` flag emission. -/
def vfArgs (o : compressOpts) : List String :=
  if vfOf o ≠ "" then ["-vf", vfOf o] else []

/-- `-r` flag emission: only when the (possibly defaulted) fps is positive and
the video is re-encoded. -/
def fpsArgs (o : compressOpts) : List String :=
  if 0 < effFPS o ∧ goToLower o.Codec ≠ "copy" then ["-r", toString (effFPS o)] else []

/-- The encoder name selected by the codec/hardware switch. -/
def vcodecOf (o : compressOpts) : String :=
  if goToLower o.Codec = "copy" then "copy"
  else if goToLower o.Codec = "h265" then
    if goToLower o.HW = "videotoolbox" then "hevc_videotoolbox" else "libx265"
  else
    if goToLower o.HW = "videotoolbox" then "h264_videotoolbox" else "libx264"

/-- The CRF→bitrate ladder for the videotoolbox hardware encoders. -/
def hwBitrate (crf : Int) : String :=
  if crf ≤ 20 then "5M"
  else if crf ≤ 23 then "4M"
  else if crf ≤ 26 then "3M"
  else if crf ≤ 30 then "2.5M"
  else if crf ≤ 36 then "2M"
  else "1500k"

/-- Rate-control flags per encoder: software encoders take CRF and preset,
hardware encoders take the ladder bitrate, with a fixed turbo override. -/
def qualityArgs (o : compressOpts) : List String :=
  if vcodecOf o = "libx264" ∨ vcodecOf o = "libx265" then
    ["-crf", toString o.CRF, "-preset", o.Preset]
  else if vcodecOf o = "h264_videotoolbox" ∨ vcodecOf o = "hevc_videotoolbox" then
    ["-b:v", if o.SpeedMode = "turbo" then "2500k" else hwBitrate o.CRF]
  else []

/-- Pixel-format flag for `.mp4` output (re-encoding branch only). -/
def pixFmtArgs (o : compressOpts) : List String :=
  if goToLower o.OutExt = ".mp4" then ["-pix_fmt", "yuv420p"] else []

/-- The `-c:v` block: plain `copy`, or encoder plus rate control plus pixel
format. -/
def videoArgs (o : compressOpts) : List String :=
  if vcodecOf o = "copy" then ["-c:v", "copy"]
  else ["-c:v", vcodecOf o] ++ qualityArgs o ++ pixFmtArgs o

/-- The zero-latency acceleration block added for turbo/max, keyed on the
selected encoder. -/
def accelArgs (o : compressOpts) : List String :=
  if o.SpeedMode = "max" ∨ o.SpeedMode = "turbo" then
    if vcodecOf o = "libx264" then
      ["-tune", "fastdecode,zerolatency", "-g", "300", "-keyint_min", "300",
       "-x264-params", x264Opts]
    else if vcodecOf o = "libx265" then
      ["-tune", "fastdecode", "-g", "300", "-keyint_min", "300"]
    else if vcodecOf o = "h264_videotoolbox" ∨ vcodecOf o = "hevc_videotoolbox" then
      ["-realtime", "true", "-g", "300"]
    else []
  else []

/-- The audio block: `copy` and `opus` pass the configured bitrate through;
the default branch (aac) appends the turbo stereo-96k or max mono-64k
override after the configured bitrate (the later `-b:a` wins in ffmpeg). -/
def audioArgs (o : compressOpts) : List String :=
  if goToLower o.Audio = "copy" then ["-c:a", "copy"]
  else if goToLower o.Audio = "opus" then ["-c:a", "libopus", "-b:a", o.AB]
  else
    ["-c:a", "aac", "-b:a", o.AB] ++
    (if o.SpeedMode = "turbo" then ["-ac", "2", "-b:a", "96k"]
     else if o.SpeedMode = "max" then ["-ac", "1", "-b:a", "64k"]
     else [])

/-- `buildFFmpegArgs`: the encode parameter compiler, as the concatenation of
its successive append blocks. -/
def buildFFmpegArgs (inPath outPath : String) (o : compressOpts) : List String :=
  ["-y", "-hide_banner", "-loglevel", "error"] ++ hwArgs o ++ ["-i", inPath]
    ++ vfArgs o ++ fpsArgs o ++ videoArgs o ++ accelArgs o ++ audioArgs o
    ++ ["-movflags", "+faststart", "-threads", "0", outPath]

/-- The `fps` form handling of `parseOpts`: the field starts at the zero
value and is assigned only when the string is non-empty, parses, and lies in
`1..60`; otherwise it stays `0`. -/
def parseFPS (v : String) : Int :=
  if v ≠ "" then
    match goAtoi v with
    | some n => if 0 < n ∧ n ≤ 60 then n else 0
    | none => 0
  else 0

/-- `parseOpts`: read form values with defaults, accept `fps` only when it
parses to `1..60` (see `parseFPS`), then normalize. The Go function returns
`(opts, error)` with the error component always `nil`, modelled as the
second component always `none`. -/
def parseOpts (form : String → String) : compressOpts × Option String :=
  let get := fun (key dflt : String) => if form key ≠ "" then form key else dflt
  let o : compressOpts :=
    { Codec := get "codec" "h264", CRF := 0, Preset := "", Scale := "",
      FPS := parseFPS (get "fps" ""), Audio := get "audio" "aac", AB := get "ab" "",
      HW := get "hw" "none", OutExt := get "outExt" ".mp4",
      SpeedMode := get "speed" "ai", Resolution := get "resolution" "original" }
  (normalize o, none)

/-- The AI-mode resolution step of `compressHandler`: when the requested mode
is `ai`, pick the first-pass mode by size, then apply the 200–2048 MB
refinement. -/
def resolveMode (o : compressOpts) (sizeMB : Int) : compressOpts :=
  if o.SpeedMode = "ai" then
    let base := chooseSpeedBySize sizeMB
    let base :=
      if 200 ≤ sizeMB ∧ sizeMB < 2048 then
        if sizeMB ≤ 250 then "balanced" else "ultra_fast"
      else base
    { o with SpeedMode := base }
  else o

/-- The complete automatic mode selection (first pass plus refinement) as a
function of the truncated megabyte size. -/
def selectMode (sizeMB : Int) : String :=
  if 200 ≤ sizeMB ∧ sizeMB < 2048 then
    if sizeMB ≤ 250 then "balanced" else "ultra_fast"
  else chooseSpeedBySize sizeMB

/-- The options right after `compressHandler` has resolved the mode and run
`tinyInputSafety`, and before `applySpeedMode`. -/
def handlerSafetyOpts (form : String → String) (inputBytes : Int) : compressOpts :=
  let o := (parseOpts form).1
  let sizeMB := Int.tdiv inputBytes (1024 * 1024)
  tinyInputSafety (resolveMode o sizeMB) inputBytes

/-- The options `compressHandler` hands to `runFFmpeg`. -/
def handlerOpts (form : String → String) (inputBytes : Int) : compressOpts :=
  applySpeedMode (handlerSafetyOpts form inputBytes)

/-- The final profile `runFFmpeg` hands to the parameter compiler on its
first attempt (`runFFmpeg` re-normalizes before compiling). -/
def finalProfile (form : String → String) (inputBytes : Int) : compressOpts :=
  normalize (handlerOpts form inputBytes)

/-- Trace of one `runFFmpeg` execution: the argument vectors of the spawned
processes in order, and whether the call returned an error. -/
structure FFmpegTrace where
  spawns : List (List String)
  failed : Bool
deriving DecidableEq

/-- `runFFmpeg`, abstracted over process outcomes: `execOk i` tells whether
the `i`-th spawn exits successfully. Normalize, compile, spawn; on failure
with the hardware flag containing `videotoolbox`, flip hardware off,
recompile and spawn exactly once more; otherwise fail terminally. -/
def runFFmpeg (inPath outPath : String) (o0 : compressOpts) (execOk : Nat → Bool) :
    FFmpegTrace :=
  let o := normalize o0
  let args := buildFFmpegArgs inPath outPath o
  if execOk 0 then ⟨[args], false⟩
  else if goContains (goToLower o.HW) "videotoolbox" then
    let o2 := { o with HW := "none" }
    let args2 := buildFFmpegArgs inPath outPath o2
    ⟨[args, args2], !execOk 1⟩
  else ⟨[args], true⟩

/-- Modelled from the spec: ffmpeg evaluation of the emitted long-edge
expression `longEdgeVF T` on a frame of width
`w` and height `h`, where `a = w/h` and `-2` means automatic even dimension;
ffmpeg itself is not part of this repository. `w/h > 1` is `h < w` for
positive heights. -/
def longEdgeDims (target w h : Nat) : Int × Int :=
  if h < w then (-2, (target : Int)) else ((target : Int), -2)

/-- Modelled from the spec: the numeric value in kbit/s of the bitrate tokens
this compiler emits, under the ffmpeg suffix convention `1M = 1000k` (so
`1500k` is 1.5M and `2500k` is 2.5M). -/
def rateKbps (s : String) : Nat :=
  if s = "5M" then 5000
  else if s = "4M" then 4000
  else if s = "3M" then 3000
  else if s = "2.5M" then 2500
  else if s = "2M" then 2000
  else if s = "1500k" then 1500
  else if s = "2500k" then 2500
  else 0

/-! Helper lemmas: which fields each transformation leaves untouched. -/

theorem applySpeedMode_Codec (o : compressOpts) : (applySpeedMode o).Codec = o.Codec := by
  unfold applySpeedMode; split_ifs <;> rfl

theorem applySpeedMode_Audio (o : compressOpts) : (applySpeedMode o).Audio = o.Audio := by
  unfold applySpeedMode; split_ifs <;> rfl

theorem applySpeedMode_HW (o : compressOpts) : (applySpeedMode o).HW = o.HW := by
  unfold applySpeedMode; split_ifs <;> rfl

theorem applySpeedMode_SpeedMode (o : compressOpts) :
    (applySpeedMode o).SpeedMode = o.SpeedMode := by
  unfold applySpeedMode; split_ifs <;> rfl

theorem applyResolution_Codec (o : compressOpts) : (applyResolution o).Codec = o.Codec := by
  unfold applyResolution; split_ifs <;> rfl

theorem applyResolution_Audio (o : compressOpts) : (applyResolution o).Audio = o.Audio := by
  unfold applyResolution; split_ifs <;> rfl

theorem applyResolution_HW (o : compressOpts) : (applyResolution o).HW = o.HW := by
  unfold applyResolution; split_ifs <;> rfl

theorem applyResolution_FPS (o : compressOpts) : (applyResolution o).FPS = o.FPS := by
  unfold applyResolution; split_ifs <;> rfl

theorem normalize_Codec (o : compressOpts) :
    (normalize o).Codec = if o.Codec = "" then "h264" else o.Codec := by
  unfold normalize; rw [applyResolution_Codec]; rfl

theorem normalize_Audio (o : compressOpts) :
    (normalize o).Audio = if o.Audio = "" then "aac" else o.Audio := by
  unfold normalize; rw [applyResolution_Audio]; rfl

theorem normalize_HW (o : compressOpts) :
    (normalize o).HW = if o.HW = "" then "none" else o.HW := by
  unfold normalize; rw [applyResolution_HW]; rfl

theorem normalize_FPS (o : compressOpts) : (normalize o).FPS = o.FPS := by
  unfold normalize; rw [applyResolution_FPS]; rfl

theorem audioArgs_mem (o : compressOpts) :
    ∀ x ∈ audioArgs o,
      x = o.AB ∨
        x ∈ (["-c:a", "copy", "libopus", "aac", "-b:a", "-ac", "2", "96k", "1", "64k"] :
          List String) := by
  intro x hx
  unfold audioArgs at hx
  split_ifs at hx <;> simp_all <;> tauto

theorem hwArgs_mem (o : compressOpts) :
    ∀ x ∈ hwArgs o,
      x ∈ (["-hwaccel", "videotoolbox", "-hwaccel_output_format"] : List String) := by
  intro x hx
  unfold hwArgs at hx
  split_ifs at hx <;> simp_all <;> tauto

/-! The claims. -/

/-- Claim C5: the first-pass size-based mode selector `chooseSpeedBySize`,
applied to the file size in whole truncated megabytes, returns `ultra_fast`
exactly for sizes at least 700 MB; in particular it returns `super_fast` at
699 MB and `ultra_fast` at 700 MB, so the boundary is inclusive at the upper
tier. -/
theorem C5_first_pass_ultra_fast_boundary (sizeMB : Int) :
    (chooseSpeedBySize sizeMB = "ultra_fast" ↔ 700 ≤ sizeMB) ∧
      chooseSpeedBySize 699 = "super_fast" ∧ chooseSpeedBySize 700 = "ultra_fast" := by
  refine ⟨?_, by decide, by decide⟩
  unfold chooseSpeedBySize
  split_ifs with h1 h2 h3 h4 <;>
    first
      | exact ⟨fun _ => h1, fun _ => rfl⟩
      | exact ⟨fun h => absurd h (by decide), fun h => absurd h (by omega)⟩

/-- Claim C2: for an automatic-mode (`ai`) request whose truncated megabyte
size lies in the 200–2048 band, the resolved speed mode is `balanced` for
sizes up to 250 MB and `ultra_fast` above, overriding the first-pass
selector (which would say `super_fast` on 200–250); the refinement boundary
sits at 250 MB (`selectMode 250 = balanced`, `selectMode 251 = ultra_fast`). -/
theorem C2_auto_mode_refinement_band (o : compressOpts) (sizeMB : Int)
    (hai : o.SpeedMode = "ai") (h200 : 200 ≤ sizeMB) (h2048 : sizeMB < 2048) :
    ((resolveMode o sizeMB).SpeedMode =
        if sizeMB ≤ 250 then "balanced" else "ultra_fast") ∧
      (resolveMode o sizeMB).SpeedMode = selectMode sizeMB ∧
      (sizeMB ≤ 250 → chooseSpeedBySize sizeMB = "super_fast") ∧
      selectMode 250 = "balanced" ∧ selectMode 251 = "ultra_fast" := by
  refine ⟨?_, ?_, ?_, by decide, by decide⟩
  · simp [resolveMode, hai, h200, h2048]
  · simp [resolveMode, selectMode, hai, h200, h2048]
  · intro h250
    unfold chooseSpeedBySize
    split_ifs with h1 h2 <;> first | rfl | omega

/-- Witness for C2 at size 250 with a concrete automatic-mode request. -/
theorem C2_auto_mode_refinement_band_witness :
    (resolveMode
        { Codec := "h264", CRF := 0, Preset := "", Scale := "", FPS := 0,
          Audio := "aac", AB := "128k", HW := "none", OutExt := ".mp4",
          SpeedMode := "ai", Resolution := "original" } 250).SpeedMode =
      if (250 : Int) ≤ 250 then "balanced" else "ultra_fast" :=
  (C2_auto_mode_refinement_band
      { Codec := "h264", CRF := 0, Preset := "", Scale := "", FPS := 0,
        Audio := "aac", AB := "128k", HW := "none", OutExt := ".mp4",
        SpeedMode := "ai", Resolution := "original" } 250
      rfl (by decide) (by decide)).1

/-- A concrete request form: mode `turbo`, resolution `720p`, everything else
absent. -/
def formTurbo720 : String → String := fun k =>
  if k = "speed" then "turbo" else if k = "resolution" then "720p" else ""

/-- Claim C1 counterexample: for a 5 MB input requesting mode `turbo` and
resolution `720p`, the profile handed to the parameter compiler has quality
34, preset `ultrafast` and scale `1280:720` — not quality 22, preset `fast`
and empty scale as the claim states. The safety override runs before
`applySpeedMode` (which overwrites CRF/preset for non-balanced modes) and
the re-`normalize` in `runFFmpeg` re-applies the resolution table, so
the override does not win over those later steps. -/
theorem C1_safety_override_cex :
    (finalProfile formTurbo720 (5 * 1024 * 1024)).CRF = 34 ∧
      (finalProfile formTurbo720 (5 * 1024 * 1024)).Preset = "ultrafast" ∧
      (finalProfile formTurbo720 (5 * 1024 * 1024)).Scale = "1280:720" ∧
      ¬ ((finalProfile formTurbo720 (5 * 1024 * 1024)).CRF = 22 ∧
         (finalProfile formTurbo720 (5 * 1024 * 1024)).Preset = "fast" ∧
         (finalProfile formTurbo720 (5 * 1024 * 1024)).Scale = "") := by
  decide

/-- Claim C1, amended: for every input whose truncated megabyte count is
below 10, `tinyInputSafety` (which runs after mode resolution but before
speed-profile application) sets codec h264, audio aac, empty scale, quality
22, preset `veryfast` (not `fast`) and hardware off; of these, codec, audio
and hardware survive into the final profile handed to the parameter
compiler, while quality/preset can be overwritten by the subsequent speed
profile and the scale is re-applied from the resolution table during
normalization. -/
theorem C1_safety_override_amended (form : String → String) (inputBytes : Int)
    (hpos : 0 ≤ inputBytes) (hsmall : Int.tdiv inputBytes (1024 * 1024) < 10) :
    ((handlerSafetyOpts form inputBytes).Codec = "h264" ∧
     (handlerSafetyOpts form inputBytes).Audio = "aac" ∧
     (handlerSafetyOpts form inputBytes).Scale = "" ∧
     (handlerSafetyOpts form inputBytes).CRF = 22 ∧
     (handlerSafetyOpts form inputBytes).Preset = "veryfast" ∧
     (handlerSafetyOpts form inputBytes).HW = "none") ∧
    ((finalProfile form inputBytes).Codec = "h264" ∧
     (finalProfile form inputBytes).Audio = "aac" ∧
     (finalProfile form inputBytes).HW = "none") := by
  have hsafe :
      handlerSafetyOpts form inputBytes =
        { resolveMode (parseOpts form).1 (Int.tdiv inputBytes (1024 * 1024)) with
          Codec := "h264", Audio := "aac", Scale := "", CRF := 22,
          Preset := "veryfast", HW := "none" } := by
    unfold handlerSafetyOpts tinyInputSafety
    rw [if_pos hsmall]
  refine ⟨by rw [hsafe]; exact ⟨rfl, rfl, rfl, rfl, rfl, rfl⟩, ?_, ?_, ?_⟩
  · unfold finalProfile handlerOpts
    rw [normalize_Codec, applySpeedMode_Codec, hsafe]
    simp
  · unfold finalProfile handlerOpts
    rw [normalize_Audio, applySpeedMode_Audio, hsafe]
    simp
  · unfold finalProfile handlerOpts
    rw [normalize_HW, applySpeedMode_HW, hsafe]
    simp

/-- Witness for the amended C1 at the concrete 5 MB turbo/720p request. -/
theorem C1_safety_override_amended_witness :
    ((handlerSafetyOpts formTurbo720 (5 * 1024 * 1024)).CRF = 22 ∧
      (handlerSafetyOpts formTurbo720 (5 * 1024 * 1024)).Preset = "veryfast") ∧
      (finalProfile formTurbo720 (5 * 1024 * 1024)).Codec = "h264" :=
  have h := C1_safety_override_amended formTurbo720 (5 * 1024 * 1024)
    (by decide) (by decide)
  ⟨⟨h.1.2.2.2.1, h.1.2.2.2.2.1⟩, h.2.1⟩

/-- Claim C3: `runFFmpeg` spawns the process at most twice; if the first
spawn fails while the (normalized) hardware flag contains `videotoolbox`,
exactly one retry happens, with hardware flipped off and the parameters
recompiled; if the first spawn fails with hardware off, there is no retry
and the failure is terminal. -/
theorem C3_transcode_retry (inPath outPath : String) (o : compressOpts)
    (execOk : Nat → Bool) :
    (runFFmpeg inPath outPath o execOk).spawns.length ≤ 2 ∧
      (execOk 0 = false →
        (goContains (goToLower (normalize o).HW) "videotoolbox" = true →
          (runFFmpeg inPath outPath o execOk).spawns =
            [buildFFmpegArgs inPath outPath (normalize o),
             buildFFmpegArgs inPath outPath { normalize o with HW := "none" }]) ∧
        (goContains (goToLower (normalize o).HW) "videotoolbox" = false →
          (runFFmpeg inPath outPath o execOk).spawns =
            [buildFFmpegArgs inPath outPath (normalize o)] ∧
          (runFFmpeg inPath outPath o execOk).failed = true)) := by
  unfold runFFmpeg
  by_cases h0 : execOk 0
  · simp [h0]
  · by_cases hhw : goContains (goToLower (normalize o).HW) "videotoolbox"
    · simp [h0, hhw]
    · simp [h0, hhw]

/-- Witness for C3: with hardware `videotoolbox` and a process that always
fails, the two spawns happen, the second with hardware off. -/
theorem C3_transcode_retry_witness :
    (runFFmpeg "in.mp4" "out.mp4"
        { Codec := "h264", CRF := 26, Preset := "veryfast", Scale := "",
          FPS := 0, Audio := "aac", AB := "128k", HW := "videotoolbox",
          OutExt := ".mp4", SpeedMode := "balanced", Resolution := "original" }
        (fun _ => false)).spawns =
      [buildFFmpegArgs "in.mp4" "out.mp4"
         (normalize
           { Codec := "h264", CRF := 26, Preset := "veryfast", Scale := "",
             FPS := 0, Audio := "aac", AB := "128k", HW := "videotoolbox",
             OutExt := ".mp4", SpeedMode := "balanced", Resolution := "original" }),
       buildFFmpegArgs "in.mp4" "out.mp4"
         { normalize
             { Codec := "h264", CRF := 26, Preset := "veryfast", Scale := "",
               FPS := 0, Audio := "aac", AB := "128k", HW := "videotoolbox",
               OutExt := ".mp4", SpeedMode := "balanced", Resolution := "original" } with
           HW := "none" }] :=
  ((C3_transcode_retry "in.mp4" "out.mp4"
      { Codec := "h264", CRF := 26, Preset := "veryfast", Scale := "",
        FPS := 0, Audio := "aac", AB := "128k", HW := "videotoolbox",
        OutExt := ".mp4", SpeedMode := "balanced", Resolution := "original" }
      (fun _ => false)).2 rfl).1 (by decide)

/-- Claim C4: for a re-encoding request (codec not `copy`) in mode `turbo`
or `max`, the compiled parameters contain the orientation-safe long-edge
filter with target 720 (turbo) or 480 (max), computed independently of the
resolution-table `Scale`; when no frame rate was requested, `-r 24` is
emitted; and (spec-modelled ffmpeg expression semantics) the filter bounds
the height with automatic width on landscape frames (`w/h > 1`) and the
width with automatic height otherwise. -/
theorem C4_long_edge_filter (o : compressOpts) (inP outP : String)
    (hc : goToLower o.Codec ≠ "copy") :
    (o.SpeedMode = "turbo" →
        vfOf o = longEdgeVF 720 ∧
        (∀ s, vfOf { o with Scale := s } = vfOf o) ∧
        (∃ A B, buildFFmpegArgs inP outP o = A ++ ["-vf", longEdgeVF 720] ++ B) ∧
        (o.FPS = 0 → ∃ A B, buildFFmpegArgs inP outP o = A ++ ["-r", "24"] ++ B)) ∧
    (o.SpeedMode = "max" →
        vfOf o = longEdgeVF 480 ∧
        (∀ s, vfOf { o with Scale := s } = vfOf o) ∧
        (∃ A B, buildFFmpegArgs inP outP o = A ++ ["-vf", longEdgeVF 480] ++ B) ∧
        (o.FPS = 0 → ∃ A B, buildFFmpegArgs inP outP o = A ++ ["-r", "24"] ++ B)) ∧
    (∀ (t w h : Nat), 0 < h →
        (h < w → longEdgeDims t w h = (-2, (t : Int))) ∧
        (¬ h < w → longEdgeDims t w h = ((t : Int), -2))) := by
  refine ⟨?_, ?_, ?_⟩
  · intro hm
    have hvf : vfOf o = longEdgeVF 720 := by simp [vfOf, hc, hm]; rfl
    have hvfa : vfArgs o = ["-vf", longEdgeVF 720] := by
      unfold vfArgs
      rw [hvf, if_pos (by decide)]
    refine ⟨hvf, ?_, ?_, ?_⟩
    · intro s; simp [vfOf, hc, hm]
    · exact ⟨["-y", "-hide_banner", "-loglevel", "error"] ++ hwArgs o ++ ["-i", inP],
        fpsArgs o ++ videoArgs o ++ accelArgs o ++ audioArgs o
          ++ ["-movflags", "+faststart", "-threads", "0", outP],
        by simp [buildFFmpegArgs, hvfa]⟩
    · intro hfps0
      have heff : effFPS o = 24 := by simp [effFPS, hc, hm, hfps0]
      have hfpsa : fpsArgs o = ["-r", "24"] := by
        unfold fpsArgs
        rw [heff, if_pos ⟨by decide, hc⟩]
        rfl
      exact ⟨["-y", "-hide_banner", "-loglevel", "error"] ++ hwArgs o ++ ["-i", inP]
          ++ vfArgs o,
        videoArgs o ++ accelArgs o ++ audioArgs o
          ++ ["-movflags", "+faststart", "-threads", "0", outP],
        by simp [buildFFmpegArgs, hfpsa]⟩
  · intro hm
    have hnt : o.SpeedMode ≠ "turbo" := by rw [hm]; decide
    have hvf : vfOf o = longEdgeVF 480 := by simp [vfOf, hc, hm, hnt]; rfl
    have hvfa : vfArgs o = ["-vf", longEdgeVF 480] := by
      unfold vfArgs
      rw [hvf, if_pos (by decide)]
    refine ⟨hvf, ?_, ?_, ?_⟩
    · intro s; simp [vfOf, hc, hm, hnt]
    · exact ⟨["-y", "-hide_banner", "-loglevel", "error"] ++ hwArgs o ++ ["-i", inP],
        fpsArgs o ++ videoArgs o ++ accelArgs o ++ audioArgs o
          ++ ["-movflags", "+faststart", "-threads", "0", outP],
        by simp [buildFFmpegArgs, hvfa]⟩
    · intro hfps0
      have heff : effFPS o = 24 := by simp [effFPS, hc, hm, hfps0]
      have hfpsa : fpsArgs o = ["-r", "24"] := by
        unfold fpsArgs
        rw [heff, if_pos ⟨by decide, hc⟩]
        rfl
      exact ⟨["-y", "-hide_banner", "-loglevel", "error"] ++ hwArgs o ++ ["-i", inP]
          ++ vfArgs o,
        videoArgs o ++ accelArgs o ++ audioArgs o
          ++ ["-movflags", "+faststart", "-threads", "0", outP],
        by simp [buildFFmpegArgs, hfpsa]⟩
  · intro t w h _
    exact ⟨fun hlt => by simp [longEdgeDims, hlt], fun hlt => by simp [longEdgeDims, hlt]⟩

/-- Witness for C4: a concrete turbo request with 16:9 landscape semantics. -/
theorem C4_long_edge_filter_witness :
    vfOf
        { Codec := "h264", CRF := 34, Preset := "ultrafast", Scale := "1280:720",
          FPS := 0, Audio := "aac", AB := "96k", HW := "none", OutExt := ".mp4",
          SpeedMode := "turbo", Resolution := "720p" } =
      longEdgeVF 720 ∧
    longEdgeDims 720 1920 1080 = (-2, 720) ∧ longEdgeDims 720 1080 1920 = (720, -2) :=
  have h := C4_long_edge_filter
    { Codec := "h264", CRF := 34, Preset := "ultrafast", Scale := "1280:720",
      FPS := 0, Audio := "aac", AB := "96k", HW := "none", OutExt := ".mp4",
      SpeedMode := "turbo", Resolution := "720p" } "in.mp4" "out.mp4" (by decide)
  ⟨(h.1 rfl).1,
   (h.2.2 720 1920 1080 (by decide)).1 (by decide),
   (h.2.2 720 1080 1920 (by decide)).2 (by decide)⟩

/-- With codec `copy`, every compiled argument is either one of a fixed set
of copy-mode tokens or one of the caller-supplied strings (paths and audio
bitrate). -/
theorem copy_args_tokens (o : compressOpts) (inP outP : String)
    (hc : goToLower o.Codec = "copy") :
    ∀ x ∈ buildFFmpegArgs inP outP o,
      x = inP ∨ x = outP ∨ x = o.AB ∨
        x ∈ (["-y", "-hide_banner", "-loglevel", "error", "-hwaccel", "videotoolbox",
              "-hwaccel_output_format", "-i", "-c:v", "copy", "-c:a", "libopus",
              "aac", "-b:a", "-ac", "2", "96k", "1", "64k", "-movflags",
              "+faststart", "-threads", "0"] : List String) := by
  have hv : vcodecOf o = "copy" := by simp [vcodecOf, hc]
  have hvfa : vfArgs o = [] := by simp [vfArgs, vfOf, hc]
  have hfpsa : fpsArgs o = [] := by simp [fpsArgs, hc]
  have hvid : videoArgs o = ["-c:v", "copy"] := by simp [videoArgs, hv]
  have hacc : accelArgs o = [] := by
    unfold accelArgs
    rw [hv]
    split_ifs <;> simp_all
  intro x hx
  rw [buildFFmpegArgs, hvfa, hfpsa, hvid, hacc] at hx
  simp only [List.append_nil, List.mem_append, List.mem_cons, List.not_mem_nil,
    or_false] at hx
  rcases hx with ((((h | h) | h) | h) | h) | h
  · rcases h with h | h | h | h
    all_goals subst h; simp
  · have := hwArgs_mem o x h
    simp at this
    rcases this with h | h | h
    all_goals subst h; simp
  · rcases h with h | h
    · subst h; simp
    · subst h; simp
  · rcases h with h | h
    · subst h; simp
    · subst h; simp
  · have := audioArgs_mem o x h
    rcases this with h | h
    · subst h; simp
    · simp at h
      rcases h with h | h | h | h | h | h | h | h | h | h
      all_goals subst h; simp
  · rcases h with h | h | h | h | h
    · subst h; simp
    · subst h; simp
    · subst h; simp
    · subst h; simp
    · exact Or.inr (Or.inl h)

/-- Claim C6: for every option set with video codec `copy` (passthrough),
the compiled argument list contains no `-vf` scale filter, no `-pix_fmt`
flag, and no `-crf`/`-preset` quality flags, regardless of mode, resolution
tier, hardware flag and output extension. (The caller-supplied audio bitrate
and file paths are assumed not to collide with those four flag tokens; in
the server they are form values, not flags.) -/
theorem C6_passthrough_no_video_flags (o : compressOpts) (inP outP : String)
    (hc : goToLower o.Codec = "copy")
    (hAB : o.AB ∉ (["-vf", "-pix_fmt", "-crf", "-preset"] : List String))
    (hIn : inP ∉ (["-vf", "-pix_fmt", "-crf", "-preset"] : List String))
    (hOut : outP ∉ (["-vf", "-pix_fmt", "-crf", "-preset"] : List String)) :
    ∀ s ∈ (["-vf", "-pix_fmt", "-crf", "-preset"] : List String),
      s ∉ buildFFmpegArgs inP outP o := by
  intro s hs hmem
  rcases copy_args_tokens o inP outP hc s hmem with h | h | h | h
  · exact hIn (h ▸ hs)
  · exact hOut (h ▸ hs)
  · exact hAB (h ▸ hs)
  · simp at hs h
    rcases hs with rfl | rfl | rfl | rfl <;> simp_all

/-- Witness for C6: a concrete passthrough request in turbo mode with
hardware on and a 720p resolution tier. -/
theorem C6_passthrough_no_video_flags_witness :
    "-vf" ∉ buildFFmpegArgs "in.mov" "out.mp4"
        { Codec := "copy", CRF := 34, Preset := "ultrafast", Scale := "1280:720",
          FPS := 0, Audio := "aac", AB := "96k", HW := "videotoolbox",
          OutExt := ".mp4", SpeedMode := "turbo", Resolution := "720p" } :=
  C6_passthrough_no_video_flags
    { Codec := "copy", CRF := 34, Preset := "ultrafast", Scale := "1280:720",
      FPS := 0, Audio := "aac", AB := "96k", HW := "videotoolbox",
      OutExt := ".mp4", SpeedMode := "turbo", Resolution := "720p" }
    "in.mov" "out.mp4" (by decide) (by decide) (by decide) (by decide)
    "-vf" (by decide)

/-- A concrete turbo request that selects the opus audio codec. -/
def optsTurboOpus : compressOpts :=
  { Codec := "h264", CRF := 34, Preset := "ultrafast", Scale := "", FPS := 0,
    Audio := "opus", AB := "128k", HW := "none", OutExt := ".mp4",
    SpeedMode := "turbo", Resolution := "original" }

/-- Claim C7 counterexample: in turbo mode with audio codec `opus`, the
compiled audio block keeps the configured bitrate `128k` and emits no `-ac`
channel flag and no `96k` token at all — the stereo/96k override does not
apply to every audio codec selection, only to the default (aac) branch. -/
theorem C7_audio_override_cex :
    optsTurboOpus.SpeedMode = "turbo" ∧
      audioArgs optsTurboOpus = ["-c:a", "libopus", "-b:a", "128k"] ∧
      "-ac" ∉ buildFFmpegArgs "in.mp4" "out.mp4" optsTurboOpus ∧
      "96k" ∉ buildFFmpegArgs "in.mp4" "out.mp4" optsTurboOpus := by
  decide

/-- Claim C7, amended: when the audio codec selection falls into the default
aac branch (it is neither `copy` nor `opus`), turbo mode appends `-ac 2
-b:a 96k` (stereo at 96k) and max mode appends `-ac 1 -b:a 64k` (mono at
64k) after the configured bitrate, so the override wins regardless of the
configured bitrate; `copy` and `opus` audio selections are unaffected. -/
theorem C7_audio_override_amended (o : compressOpts)
    (hnc : goToLower o.Audio ≠ "copy") (hno : goToLower o.Audio ≠ "opus") :
    (o.SpeedMode = "turbo" →
        audioArgs o = ["-c:a", "aac", "-b:a", o.AB, "-ac", "2", "-b:a", "96k"]) ∧
      (o.SpeedMode = "max" →
        audioArgs o = ["-c:a", "aac", "-b:a", o.AB, "-ac", "1", "-b:a", "64k"]) := by
  constructor
  · intro hm; simp [audioArgs, hnc, hno, hm]
  · intro hm
    have hnt : o.SpeedMode ≠ "turbo" := by rw [hm]; decide
    simp [audioArgs, hnc, hno, hm, hnt]

/-- Witness for the amended C7: a turbo request with aac audio configured at
320k still gets `-ac 2 -b:a 96k` appended. -/
theorem C7_audio_override_amended_witness :
    audioArgs
        { Codec := "h264", CRF := 34, Preset := "ultrafast", Scale := "", FPS := 0,
          Audio := "aac", AB := "320k", HW := "none", OutExt := ".mp4",
          SpeedMode := "turbo", Resolution := "original" } =
      ["-c:a", "aac", "-b:a", "320k", "-ac", "2", "-b:a", "96k"] :=
  (C7_audio_override_amended
      { Codec := "h264", CRF := 34, Preset := "ultrafast", Scale := "", FPS := 0,
        Audio := "aac", AB := "320k", HW := "none", OutExt := ".mp4",
        SpeedMode := "turbo", Resolution := "original" }
      (by decide) (by decide)).1 rfl

/-- Claim C8: with a videotoolbox hardware encoder selected, the quality
parameter maps to the bitrate ladder ≤20→5M, ≤23→4M, ≤26→3M, ≤30→2.5M,
≤36→2M, else 1500k (= 1.5M), and turbo mode instead always emits the fixed
2500k (= 2.5M), for every quality value. The kbit/s readings use the
spec-modelled `rateKbps`. -/
theorem C8_hw_bitrate_ladder (o : compressOpts)
    (hhw : goToLower o.HW = "videotoolbox") (hc : goToLower o.Codec ≠ "copy") :
    (vcodecOf o = "h264_videotoolbox" ∨ vcodecOf o = "hevc_videotoolbox") ∧
      (o.SpeedMode = "turbo" →
        qualityArgs o = ["-b:v", "2500k"] ∧ rateKbps "2500k" = 2500) ∧
      (o.SpeedMode ≠ "turbo" →
        qualityArgs o = ["-b:v", hwBitrate o.CRF] ∧
          ((o.CRF ≤ 20 → hwBitrate o.CRF = "5M" ∧ rateKbps "5M" = 5000) ∧
           (20 < o.CRF → o.CRF ≤ 23 → hwBitrate o.CRF = "4M" ∧ rateKbps "4M" = 4000) ∧
           (23 < o.CRF → o.CRF ≤ 26 → hwBitrate o.CRF = "3M" ∧ rateKbps "3M" = 3000) ∧
           (26 < o.CRF → o.CRF ≤ 30 → hwBitrate o.CRF = "2.5M" ∧ rateKbps "2.5M" = 2500) ∧
           (30 < o.CRF → o.CRF ≤ 36 → hwBitrate o.CRF = "2M" ∧ rateKbps "2M" = 2000) ∧
           (36 < o.CRF → hwBitrate o.CRF = "1500k" ∧ rateKbps "1500k" = 1500))) := by
  have hv : vcodecOf o = "h264_videotoolbox" ∨ vcodecOf o = "hevc_videotoolbox" := by
    unfold vcodecOf
    rw [if_neg hc, hhw]
    by_cases h5 : goToLower o.Codec = "h265" <;> simp [h5]
  have hq : qualityArgs o =
      ["-b:v", if o.SpeedMode = "turbo" then "2500k" else hwBitrate o.CRF] := by
    unfold qualityArgs
    rcases hv with h | h <;> rw [h] <;> simp
  refine ⟨hv, ?_, ?_⟩
  · intro hm
    rw [hq, if_pos hm]
    exact ⟨rfl, rfl⟩
  · intro hm
    rw [hq, if_neg hm]
    refine ⟨rfl, ?_, ?_, ?_, ?_, ?_, ?_⟩ <;>
      (intros; unfold hwBitrate; split_ifs <;> first | exact ⟨rfl, rfl⟩ | omega)

/-- Witness for C8: quality 40 on a hardware h265 encode yields `1500k`, a
turbo hardware encode yields `2500k`. -/
theorem C8_hw_bitrate_ladder_witness :
    (qualityArgs
        { Codec := "h265", CRF := 40, Preset := "ultrafast", Scale := "", FPS := 0,
          Audio := "aac", AB := "128k", HW := "videotoolbox", OutExt := ".mp4",
          SpeedMode := "balanced", Resolution := "original" } =
      ["-b:v", hwBitrate 40]) ∧
      hwBitrate (40 : Int) = "1500k" ∧ rateKbps "1500k" = 1500 :=
  have h := C8_hw_bitrate_ladder
    { Codec := "h265", CRF := 40, Preset := "ultrafast", Scale := "", FPS := 0,
      Audio := "aac", AB := "128k", HW := "videotoolbox", OutExt := ".mp4",
      SpeedMode := "balanced", Resolution := "original" }
    (by decide) (by decide)
  have h2 := (h.2.2 (by decide))
  ⟨h2.1, (h2.2).2.2.2.2.2 (by decide)⟩

theorem applyResolution_Scale_unknown (o : compressOpts)
    (h : o.Resolution ∉ (["360p", "480p", "720p", "1080p", "1440p", "2160p"] :
      List String)) :
    (applyResolution o).Scale = o.Scale := by
  unfold applyResolution
  split_ifs <;> simp_all

theorem normalize_Scale_unknown (o : compressOpts)
    (h : o.Resolution ∉ (["360p", "480p", "720p", "1080p", "1440p", "2160p"] :
      List String)) :
    (normalize o).Scale = o.Scale := by
  unfold normalize
  rw [applyResolution_Scale_unknown]
  · rfl
  · have hres : (fillDefaults o).Resolution =
        if o.Resolution = "" then "original" else o.Resolution := rfl
    rw [hres]
    by_cases hv : o.Resolution = "" <;> simp [hv, h]

/-- Claim C9: unknown enumeration values are never rejected: option parsing
returns no error for any form whatsoever (so unknown video/audio codecs and
modes pass through), an unrecognized resolution tier leaves the scale target
empty (keep original), and an unrecognized speed mode hits the balanced
default branch of the speed profile table (CRF 26 and preset `veryfast`
when unset, everything else untouched). -/
theorem C9_unknown_enums_tolerated (form : String → String) (o : compressOpts) :
    (parseOpts form).2 = none ∧
      (form "resolution" ∉ (["360p", "480p", "720p", "1080p", "1440p", "2160p"] :
          List String) →
        (parseOpts form).1.Scale = "") ∧
      (o.SpeedMode ∉ (["turbo", "max", "ultra_fast", "super_fast", "fast",
          "quality"] : List String) →
        applySpeedMode o =
          { o with
            CRF := if o.CRF = 0 then 26 else o.CRF,
            Preset := if o.Preset = "" then "veryfast" else o.Preset }) := by
  refine ⟨rfl, ?_, ?_⟩
  · intro hres
    unfold parseOpts
    simp only []
    rw [normalize_Scale_unknown]
    by_cases hv : form "resolution" = "" <;> simp [hv, hres]
  · intro hm
    simp only [List.mem_cons, List.not_mem_nil, or_false, not_or] at hm
    obtain ⟨h1, h2, h3, h4, h5, h6⟩ := hm
    unfold applySpeedMode
    rw [if_neg h1, if_neg h2, if_neg h3, if_neg h4, if_neg h5, if_neg h6]

/-- Witness for C9 at a form carrying unknown values everywhere. -/
theorem C9_unknown_enums_tolerated_witness :
    (parseOpts (fun _ => "mystery")).2 = none ∧
      (parseOpts (fun _ => "mystery")).1.Scale = "" :=
  have h := C9_unknown_enums_tolerated (fun _ => "mystery")
    { Codec := "h264", CRF := 0, Preset := "", Scale := "", FPS := 0,
      Audio := "aac", AB := "128k", HW := "none", OutExt := ".mp4",
      SpeedMode := "mystery", Resolution := "original" }
  ⟨h.1, h.2.1 (by decide)⟩

theorem parseOpts_FPS (form : String → String) :
    (parseOpts form).1.FPS =
      match goAtoi (form "fps") with
      | some n => if 0 < n ∧ n ≤ 60 then n else 0
      | none => 0 := by
  have h1 : (parseOpts form).1.FPS =
      parseFPS (if form "fps" ≠ "" then form "fps" else "") := by
    unfold parseOpts
    simp only []
    rw [normalize_FPS]
  rw [h1]
  by_cases hv : form "fps" = ""
  · rw [hv]
    decide
  · simp [parseFPS, hv]

/-- Claim C10: an `fps` form value that is non-numeric, zero, negative or
above 60 is silently ignored — the parsed frame-rate override stays `0` and
parsing still succeeds; a non-zero parsed override only ever comes from a
value that parsed into `1..60`; with the override unset and the mode not a
preview mode no `-r` flag is emitted; and whenever `-r` is emitted the codec
is not `copy` and the value is either the supplied override or the preview
default 24. -/
theorem C10_fps_validation (form : String → String) (o : compressOpts) :
    ((¬ ∃ n : Int, goAtoi (form "fps") = some n ∧ 0 < n ∧ n ≤ 60) →
        (parseOpts form).1.FPS = 0 ∧ (parseOpts form).2 = none) ∧
      ((parseOpts form).1.FPS ≠ 0 →
        ∃ n : Int, goAtoi (form "fps") = some n ∧ 0 < n ∧ n ≤ 60 ∧
          (parseOpts form).1.FPS = n) ∧
      (o.FPS = 0 → o.SpeedMode ≠ "turbo" → o.SpeedMode ≠ "max" → fpsArgs o = []) ∧
      (fpsArgs o ≠ [] →
        goToLower o.Codec ≠ "copy" ∧
          (0 < o.FPS ∧ fpsArgs o = ["-r", toString o.FPS] ∨
            (o.SpeedMode = "turbo" ∨ o.SpeedMode = "max") ∧ o.FPS = 0 ∧
              fpsArgs o = ["-r", "24"])) := by
  refine ⟨?_, ?_, ?_, ?_⟩
  · intro hinv
    refine ⟨?_, rfl⟩
    rw [parseOpts_FPS]
    cases hg : goAtoi (form "fps") with
    | none => rfl
    | some n =>
      show (if 0 < n ∧ n ≤ 60 then n else 0) = 0
      split_ifs with h
      · exact absurd ⟨n, hg, h.1, h.2⟩ hinv
      · rfl
  · intro hne
    have hfps := parseOpts_FPS form
    cases hg : goAtoi (form "fps") with
    | none => rw [hg] at hfps; exact absurd hfps hne
    | some n =>
      rw [hg] at hfps
      by_cases h : 0 < n ∧ n ≤ 60
      · refine ⟨n, rfl, h.1, h.2, ?_⟩
        rw [hfps]
        show (if 0 < n ∧ n ≤ 60 then n else 0) = n
        rw [if_pos h]
      · exfalso
        apply hne
        rw [hfps]
        show (if 0 < n ∧ n ≤ 60 then n else 0) = 0
        rw [if_neg h]
  · intro hz ht hm
    unfold fpsArgs effFPS
    simp [hz, ht, hm]
  · intro hne
    unfold fpsArgs at hne
    split_ifs at hne with h
    · obtain ⟨hpos, hcopy⟩ := h
      refine ⟨hcopy, ?_⟩
      by_cases hcond :
          goToLower o.Codec ≠ "copy" ∧ (o.SpeedMode = "turbo" ∨ o.SpeedMode = "max") ∧
            o.FPS = 0
      · have heff : effFPS o = 24 := by unfold effFPS; rw [if_pos hcond]
        refine Or.inr ⟨hcond.2.1, hcond.2.2, ?_⟩
        unfold fpsArgs
        rw [heff, if_pos ⟨by decide, hcopy⟩]
        rfl
      · have heff : effFPS o = o.FPS := by unfold effFPS; rw [if_neg hcond]
        rw [heff] at hpos
        refine Or.inl ⟨hpos, ?_⟩
        unfold fpsArgs
        rw [heff, if_pos ⟨hpos, hcopy⟩]
    · exact absurd rfl hne

/-- Witness for C10 at the out-of-range value `61` and at a turbo request
with no fps. -/
theorem C10_fps_validation_witness :
    ((parseOpts (fun k => if k = "fps" then "61" else "")).1.FPS = 0 ∧
      (parseOpts (fun k => if k = "fps" then "61" else "")).2 = none) ∧
      fpsArgs
          { Codec := "h264", CRF := 26, Preset := "veryfast", Scale := "", FPS := 0,
            Audio := "aac", AB := "128k", HW := "none", OutExt := ".mp4",
            SpeedMode := "balanced", Resolution := "original" } =
        [] :=
  have h := C10_fps_validation (fun k => if k = "fps" then "61" else "")
    { Codec := "h264", CRF := 26, Preset := "veryfast", Scale := "", FPS := 0,
      Audio := "aac", AB := "128k", HW := "none", OutExt := ".mp4",
      SpeedMode := "balanced", Resolution := "original" }
  ⟨h.1 (by decide), h.2.2.1 rfl (by decide) (by decide)⟩

end VideoCompress
